import Mathlib

/-!
Verification of the KAS anchoring client (`kas/anchor.go`).

The embedding models the anchoring core as pure functions over explicit
collaborator parameters:
  * the block store `bc : Nat → Option Block` stands for
    `BlockChain.GetBlockByNumber` (`nil` result becomes `none`);
  * the HTTP transport `client : HTTPClient` stands for `HTTPClient.Do`
    together with the JSON decoding of the response body;
  * every operation additionally returns a `List Event` trace recording the
    collaborator calls it makes, so frame properties (no AnchorDB access,
    no network call on a given path) are statements about the trace.

Go run-time panics that the source can hit (nil-pointer dereference on the
aggregation result, integer division by zero in the period gate) are modelled
as explicit outcomes, since they are observable behaviour of the source.
uint64 arithmetic is `Nat` with `% 2 ^ 64` where the source can wrap.
-/

namespace KasAnchor

/-- A transaction is opaque to the anchoring core; only `len` of the
transaction list is ever read, so a transaction is just a tag. -/
abbrev Tx := Nat

/-- The fields of `types.Header` that the anchoring core reads.  Hash values
are opaque 32-byte strings in Go; they are modelled as opaque naturals. -/
structure Header where
  Number : Nat
  TxHash : Nat
  ParentHash : Nat
  ReceiptHash : Nat
  Root : Nat
deriving DecidableEq

/-- The view of `types.Block` used by the core: its header, its transaction
list (`block.Body().Transactions`) and its hash (`block.Hash()`, a digest of
the header, opaque here). -/
structure Block where
  header : Header
  txs : List Tx
  hash : Nat
deriving DecidableEq

/-- Embedding of `block.NumberU64()`: the header number as a uint64
(`big.Int.Uint64` keeps the low 64 bits). -/
def Block.numberU64 (b : Block) : Nat := b.header.Number % 2 ^ 64

/-- The fields of `KASConfig` read by the anchoring core. -/
structure KASConfig where
  Url : String
  Xkrn : String
  User : String
  Pwd : String
  Operator : Nat
  Anchor : Bool
  AnchorPeriod : Nat
deriving DecidableEq

/-- Embedding of `types.AnchoringDataInternalType0`.  `BlockNumber` is a
`big.Int` in Go and kept untruncated; the counters are uint64/int values. -/
structure AnchoringDataInternalType0 where
  BlockHash : Nat
  TxHash : Nat
  ParentHash : Nat
  ReceiptHash : Nat
  StateRootHash : Nat
  BlockNumber : Nat
  BlockCount : Nat
  TxCount : Nat
deriving DecidableEq

/-- A collaborator call made by the anchoring core.  The two AnchorDB events
exist so that the frame property "the watermark is never touched" is a
statement about traces; the core never emits them. -/
inductive Event where
  | getBlockByNumber (height : Nat)
  | clientDo
  | readAnchoredBlockNumber
  | writeAnchoredBlockNumber (n : Nat)
deriving DecidableEq

/-- Whether an event is a call to the AnchorDB watermark capability
(`ReadAnchoredBlockNumber` / `WriteAnchoredBlockNumber`). -/
def Event.isDbCall : Event → Bool
  | .readAnchoredBlockNumber => true
  | .writeAnchoredBlockNumber _ => true
  | _ => false

/-- Embedding of `respBody`: the decoded service response.  `Result` is an
opaque JSON value, modelled as an optional string; the Go zero value is
`{Code: 0, Result: nil}`. -/
structure RespBody where
  Code : Int
  Result : Option String
deriving DecidableEq

/-- Embedding of the `Payload` struct: the anchoring data plus the string
`id`.  The Go struct embeds `AnchoringDataInternalType0`; here it is the
field `data`. -/
structure Payload where
  Id : String
  data : AnchoringDataInternalType0
deriving DecidableEq

/-- Embedding of `reqBody`: the request envelope sent to the service. -/
structure ReqBody where
  Operator : Nat
  Payload : Payload
deriving DecidableEq

/-- Outcome of one `HTTPClient.Do` call plus response-body decoding:
either a transport-level error, or a response whose body decodes to
`some r`, or fails to decode (`none`). -/
inductive DoResult where
  | err (msg : String)
  | ok (body : Option RespBody)
deriving DecidableEq

/-- The HTTP transport collaborator: what `client.Do` returns for a given
request body. -/
abbrev HTTPClient := ReqBody → DoResult

/-- Embedding of `json.NewDecoder(resp.Body).Decode(&v)` with its error
ignored: a body that fails to decode leaves `v` at its zero value,
whose `Code` is 0. -/
def decodeRespBody : Option RespBody → RespBody
  | some r => r
  | none => { Code := 0, Result := none }

/-- Embedding of the lookup loop of `blockToAnchoringDataInternalType0`:
starting at height `i` with `fuel` iterations left and accumulator `acc`,
retrieve each block via `bc` and add its transaction count; a missing block
aborts the whole loop with `none`.  The trace records the lookups made, in
order, including the one that missed. -/
def aggLoop (bc : Nat → Option Block) : Nat → Nat → Nat → Option Nat × List Event
  | _, 0, acc => (some acc, [])
  | i, fuel + 1, acc =>
    match bc i with
    | none => (none, [Event.getBlockByNumber i])
    | some b =>
      let r := aggLoop bc (i + 1) fuel (acc + b.txs.length)
      (r.1, Event.getBlockByNumber i :: r.2)

/-- Embedding of `blockToAnchoringDataInternalType0`.  `start` and `blkCnt`
follow the Go uint64 arithmetic: the guard `NumberU64() >= AnchorPeriod`
keeps `start` from underflowing, and `blkCnt = NumberU64() - start + 1` is
computed modulo `2 ^ 64` (it can only wrap when `AnchorPeriod` is 0).
A `none` result models the Go function returning a nil pointer. -/
def blockToAnchoringDataInternalType0 (cfg : KASConfig) (bc : Nat → Option Block)
    (block : Block) : Option AnchoringDataInternalType0 × List Event :=
  let h := block.numberU64
  let start : Nat := if cfg.AnchorPeriod ≤ h then (h - cfg.AnchorPeriod + 1) % 2 ^ 64 else 0
  let blkCnt : Nat := (h + (2 ^ 64 - start) + 1) % 2 ^ 64
  let loop := aggLoop bc start (h - start) block.txs.length
  match loop.1 with
  | none => (none, loop.2)
  | some txCount =>
    (some {
      BlockHash := block.hash
      TxHash := block.header.TxHash
      ParentHash := block.header.ParentHash
      ReceiptHash := block.header.ReceiptHash
      StateRootHash := block.header.Root
      BlockNumber := block.header.Number
      BlockCount := blkCnt
      TxCount := txCount }, loop.2)

/-- Embedding of `dataToPayload` on a non-nil argument: wraps the anchoring
data with `Id = anchorData.BlockNumber.String()`, the decimal rendering of
the block number (`Nat.repr`).  The Go function dereferences its pointer
argument, so calling it on nil panics; that case is handled at the call
site in `AnchorBlock`. -/
def dataToPayload (anchorData : AnchoringDataInternalType0) : Payload :=
  { Id := Nat.repr anchorData.BlockNumber
    data := anchorData }

/-- Embedding of `sendRequest`: builds the `reqBody` envelope, performs the
one `client.Do` call, and decodes the response body ignoring decode errors.
JSON marshalling of `reqBody` and `http.NewRequest` on the configured URL
cannot fail for the values in this model, so the only error source is the
transport itself. -/
def sendRequest (cfg : KASConfig) (client : HTTPClient) (payload : Payload) :
    Except String RespBody × List Event :=
  let bodyData : ReqBody := { Operator := cfg.Operator, Payload := payload }
  match client bodyData with
  | .err e => (Except.error e, [Event.clientDo])
  | .ok body => (Except.ok (decodeRespBody body), [Event.clientDo])

/-- Outcome of `AnchorBlock`: returns nil (`ok`), returns the
`error code %v` error for a nonzero status (`errCode`), returns the
transport error (`transportErr`), or panics with a nil-pointer dereference
inside `dataToPayload` when the aggregation returned nil (`panicNilDeref`). -/
inductive AnchorResult where
  | ok
  | errCode (code : Int)
  | transportErr (msg : String)
  | panicNilDeref
deriving DecidableEq

/-- Embedding of `AnchorBlock`.  Note the source does not nil-check the
result of `blockToAnchoringDataInternalType0`: when it is nil,
`dataToPayload` dereferences the nil pointer and the call panics before any
payload is built or any request is sent. -/
def AnchorBlock (cfg : KASConfig) (bc : Nat → Option Block) (client : HTTPClient)
    (block : Block) : AnchorResult × List Event :=
  let agg := blockToAnchoringDataInternalType0 cfg bc block
  match agg.1 with
  | none => (.panicNilDeref, agg.2)
  | some anchorData =>
    let payload := dataToPayload anchorData
    let send := sendRequest cfg client payload
    match send.1 with
    | .error e => (.transportErr e, agg.2 ++ send.2)
    | .ok res =>
      if res.Code ≠ 0 then (.errCode res.Code, agg.2 ++ send.2)
      else (.ok, agg.2 ++ send.2)

/-- The gating decision at the top of `AnchorPeriodicBlock`: skip, proceed
with the block, or panic.  `panicDivZero` is the Go run-time panic of
`NumberU64() % AnchorPeriod` when `AnchorPeriod` is zero (integer division or modulo by zero panics in Go). -/
inductive GateDecision where
  | skip
  | proceed (b : Block)
  | panicDivZero
deriving DecidableEq

/-- Embedding of the gating sequence of `AnchorPeriodicBlock`, in source
order: disabled feature → return; nil block → log and return;
`NumberU64() % AnchorPeriod != 0` → return (panicking if the period is
zero); otherwise anchor the block. -/
def anchorGate (cfg : KASConfig) (block : Option Block) : GateDecision :=
  if cfg.Anchor = false then .skip
  else
    match block with
    | none => .skip
    | some b =>
      if cfg.AnchorPeriod = 0 then .panicDivZero
      else if b.numberU64 % cfg.AnchorPeriod ≠ 0 then .skip
      else .proceed b

/-- Observable outcome of `AnchorPeriodicBlock` for its caller: either the
call returns normally (whatever was logged), or a run-time panic propagates
out of it. -/
inductive PeriodicResult where
  | returned
  | panicked
deriving DecidableEq

/-- Embedding of `AnchorPeriodicBlock`: gate, then call `AnchorBlock`,
logging and swallowing an error result.  A panic inside `AnchorBlock`
(or in the gate's modulo) propagates to the caller. -/
def AnchorPeriodicBlock (cfg : KASConfig) (bc : Nat → Option Block)
    (client : HTTPClient) (block : Option Block) : PeriodicResult × List Event :=
  match anchorGate cfg block with
  | .skip => (.returned, [])
  | .panicDivZero => (.panicked, [])
  | .proceed b =>
    let r := AnchorBlock cfg bc client b
    match r.1 with
    | .panicNilDeref => (.panicked, r.2)
    | _ => (.returned, r.2)

/-- Window start as the spec words it: `max(0, h - period + 1)`, computed
over the integers (spec-side definition, to be compared with the `start`
computed by the source). -/
def specWindowStart (period h : Nat) : Nat :=
  (max 0 ((h : Int) - (period : Int) + 1)).toNat

/-- Spec-side window sum: total transaction count of the blocks at heights
`start .. h-1`, each retrieved via the lookup (`0` for a missing block;
the theorems only use it when every lookup in the range succeeds). -/
def specWindowTxSum (bc : Nat → Option Block) (start h : Nat) : Nat :=
  ((List.range' start (h - start)).map fun j => (bc j).elim 0 fun b => b.txs.length).sum

/-! Concrete fixtures used by the witness and counterexample theorems. -/

/-- A configuration with anchoring enabled and period 1. -/
def exCfg1 : KASConfig :=
  { Url := "https://example/v1/anchor", Xkrn := "krn:test", User := "u", Pwd := "p"
    Operator := 7, Anchor := true, AnchorPeriod := 1 }

/-- The same configuration with period 2. -/
def exCfg2 : KASConfig := { exCfg1 with AnchorPeriod := 2 }

/-- A header at the given height with fixed hash fields. -/
def exHeader (n : Nat) : Header :=
  { Number := n, TxHash := 1, ParentHash := 2, ReceiptHash := 3, Root := 4 }

/-- A block at the given height with the given transactions. -/
def exBlock (n : Nat) (txs : List Tx) : Block :=
  { header := exHeader n, txs := txs, hash := 90 + n }

/-- A block store with no blocks at all. -/
def bcNone : Nat → Option Block := fun _ => none

/-- A block store holding blocks at heights 0 (one transaction) and
1 (three transactions). -/
def exBc : Nat → Option Block := fun n =>
  if n = 0 then some (exBlock 0 [1]) else if n = 1 then some (exBlock 1 [1, 2, 3]) else none

/-- The service response with status code 0. -/
def respBody0 : RespBody := { Code := 0, Result := none }

/-- The service response with status code 42. -/
def respBody42 : RespBody := { Code := 42, Result := none }

/-- A transport stub whose response decodes to status code 0. -/
def clientOk0 : HTTPClient := fun _ => DoResult.ok (some respBody0)

/-- A transport stub whose response decodes to status code 42. -/
def clientOk42 : HTTPClient := fun _ => DoResult.ok (some respBody42)

/-- A transport stub whose response body fails to decode. -/
def clientBadBody : HTTPClient := fun _ => DoResult.ok none

/-- A transport stub that fails at the transport level. -/
def clientErr : HTTPClient := fun _ => DoResult.err "transport down"

/-- The aggregation result for `exBlock 0 [1, 2, 3]` under period 1: the
window is the block alone, so the counters are 1 block and 3 transactions. -/
def exData0 : AnchoringDataInternalType0 :=
  { BlockHash := 90, TxHash := 1, ParentHash := 2, ReceiptHash := 3, StateRootHash := 4
    BlockNumber := 0, BlockCount := 1, TxCount := 3 }

end KasAnchor

namespace KasAnchor

/-- C3: the gating decision of `AnchorPeriodicBlock` skips whenever anchoring
is disabled; skips on a nil block; and for an enabled configuration with
period ≥ 1 it proceeds on a non-nil block exactly when the block height is
divisible by the period — and when it proceeds, `AnchorPeriodicBlock`
performs exactly the collaborator calls of `AnchorBlock`. -/
theorem gate_decision_spec :
    (∀ cfg block, cfg.Anchor = false → anchorGate cfg block = GateDecision.skip) ∧
    (∀ cfg, anchorGate cfg none = GateDecision.skip) ∧
    (∀ cfg b, cfg.Anchor = true → 1 ≤ cfg.AnchorPeriod →
      (anchorGate cfg (some b) = GateDecision.proceed b ↔
        b.numberU64 % cfg.AnchorPeriod = 0)) ∧
    (∀ cfg bc client b, anchorGate cfg (some b) = GateDecision.proceed b →
      (AnchorPeriodicBlock cfg bc client (some b)).2 = (AnchorBlock cfg bc client b).2) := by
  refine ⟨?_, ?_, ?_, ?_⟩
  · intro cfg block hA
    simp [anchorGate, hA]
  · intro cfg
    by_cases hA : cfg.Anchor = false <;> simp [anchorGate, hA]
  · intro cfg b hA hp
    have hp0 : ¬ cfg.AnchorPeriod = 0 := by omega
    constructor
    · intro hgate
      by_contra hmod
      simp [anchorGate, hA, hp0, hmod] at hgate
    · intro hmod
      simp [anchorGate, hA, hp0, hmod]
  · intro cfg bc client b hgate
    unfold AnchorPeriodicBlock
    rw [hgate]
    rcases hab : AnchorBlock cfg bc client b with ⟨res, tr⟩
    simp only [hab]
    cases res <;> rfl

/-- C3 witness: the gate skips a disabled configuration and a nil block, and
proceeds at height 2 with period 2. -/
theorem gate_decision_spec_witness :
    anchorGate { exCfg2 with Anchor := false } (some (exBlock 2 [])) = GateDecision.skip ∧
    anchorGate exCfg2 none = GateDecision.skip ∧
    anchorGate exCfg2 (some (exBlock 2 [])) = GateDecision.proceed (exBlock 2 []) ∧
    (AnchorPeriodicBlock exCfg2 exBc clientOk0 (some (exBlock 2 []))).2 =
      (AnchorBlock exCfg2 exBc clientOk0 (exBlock 2 [])).2 :=
  ⟨gate_decision_spec.1 _ _ rfl,
   gate_decision_spec.2.1 _,
   (gate_decision_spec.2.2.1 _ _ rfl (by decide)).mpr (by decide),
   gate_decision_spec.2.2.2 _ _ _ _ ((gate_decision_spec.2.2.1 _ _ rfl (by decide)).mpr (by decide))⟩

/-- C10: with anchoring enabled and `AnchorPeriod = 0`, the gate hits the Go
run-time panic of modulo by zero on every non-nil block; with
`AnchorPeriod ≥ 1` the modulo is well defined and the gate never panics. -/
theorem gate_requires_positive_period :
    (∀ cfg b, cfg.Anchor = true → cfg.AnchorPeriod = 0 →
      anchorGate cfg (some b) = GateDecision.panicDivZero) ∧
    (∀ cfg block, 1 ≤ cfg.AnchorPeriod →
      anchorGate cfg block ≠ GateDecision.panicDivZero) := by
  constructor
  · intro cfg b hA hp
    simp [anchorGate, hA, hp]
  · intro cfg block hp
    have hp0 : ¬ cfg.AnchorPeriod = 0 := by omega
    by_cases hA : cfg.Anchor = false
    · simp [anchorGate, hA]
    · cases block with
      | none => simp [anchorGate, hA]
      | some b =>
        by_cases hm : b.numberU64 % cfg.AnchorPeriod = 0 <;>
          simp [anchorGate, hA, hp0, hm]

/-- C10 witness: the gate panics at period 0 and does not panic at period 2. -/
theorem gate_requires_positive_period_witness :
    anchorGate { exCfg2 with AnchorPeriod := 0 } (some (exBlock 2 [])) =
      GateDecision.panicDivZero ∧
    anchorGate exCfg2 (some (exBlock 2 [])) ≠ GateDecision.panicDivZero :=
  ⟨gate_requires_positive_period.1 _ _ rfl rfl,
   gate_requires_positive_period.2 _ _ (by decide)⟩

/-- C8: `dataToPayload` is a pure total function whose `Id` field is the
decimal string rendering of the summary's block number and which keeps the
summary itself unchanged (for every summary, height 0 included). -/
theorem payload_id_is_decimal_height :
    ∀ d : AnchoringDataInternalType0,
      (dataToPayload d).Id = Nat.repr d.BlockNumber ∧ (dataToPayload d).data = d :=
  fun _ => ⟨rfl, rfl⟩

/-- C2: at height 1 with period 2, a lookup miss at height 0 makes
`blockToAnchoringDataInternalType0` return nil, and `AnchorBlock` then
panics with a nil-pointer dereference inside `dataToPayload` — the trace
shows the failed lookup and no network call, but no error is returned. -/
theorem missing_window_block_panics :
    AnchorBlock exCfg2 bcNone clientOk0 (exBlock 1 [5]) =
      (AnchorResult.panicNilDeref, [Event.getBlockByNumber 0]) := by
  decide

/-- C7: the panic of the missing-window-block path propagates through
`AnchorPeriodicBlock`: at height 2 with period 2 and a miss at height 1,
the periodic entry point panics instead of returning normally. -/
theorem periodic_panics_on_missing_window_block :
    AnchorPeriodicBlock exCfg2 bcNone clientOk0 (some (exBlock 2 [5, 6])) =
      (PeriodicResult.panicked, [Event.getBlockByNumber 1]) := by
  decide

/-- C4 counterexample: with a transport-successful response whose body fails
to decode, `AnchorBlock` reports success — the zero-value response's status
code 0 is the success sentinel — refuting the claim that it does not report
success. -/
theorem decode_failure_reported_as_success :
    AnchorBlock exCfg1 bcNone clientBadBody (exBlock 0 [1, 2, 3]) =
      (AnchorResult.ok, [Event.clientDo]) := by
  decide

/-- C4 as amended: whenever the aggregation succeeds and the transport
returns a response whose body fails to decode, `AnchorBlock` reports
success — the zero-value response produced by the ignored decode error has
status code 0, the success sentinel. -/
theorem decode_failure_yields_success (cfg : KASConfig) (bc : Nat → Option Block)
    (client : HTTPClient) (block : Block) (d : AnchoringDataInternalType0)
    (hagg : (blockToAnchoringDataInternalType0 cfg bc block).1 = some d)
    (hclient : ∀ r, client r = DoResult.ok none) :
    (AnchorBlock cfg bc client block).1 = AnchorResult.ok := by
  simp [AnchorBlock, hagg, sendRequest, hclient, decodeRespBody]

/-- C4 witness for the amended claim: block 0 under period 1 with an
undecodable response body is anchored as a success. -/
theorem decode_failure_yields_success_witness :
    (blockToAnchoringDataInternalType0 exCfg1 bcNone (exBlock 0 [1, 2, 3])).1 = some exData0 ∧
    (AnchorBlock exCfg1 bcNone clientBadBody (exBlock 0 [1, 2, 3])).1 = AnchorResult.ok :=
  ⟨by decide,
   decode_failure_yields_success exCfg1 bcNone clientBadBody (exBlock 0 [1, 2, 3]) exData0
     (by decide) (fun r => rfl)⟩

/-- C5: when the aggregation succeeds, the transport succeeds and the body
decodes to `res`, `AnchorBlock` reports success exactly when `res.Code = 0`,
and for a nonzero code it returns the service-rejection error carrying that
code. -/
theorem status_code_classification (cfg : KASConfig) (bc : Nat → Option Block)
    (client : HTTPClient) (block : Block) (d : AnchoringDataInternalType0) (res : RespBody)
    (hagg : (blockToAnchoringDataInternalType0 cfg bc block).1 = some d)
    (hclient : ∀ r, client r = DoResult.ok (some res)) :
    ((AnchorBlock cfg bc client block).1 = AnchorResult.ok ↔ res.Code = 0) ∧
    (res.Code ≠ 0 → (AnchorBlock cfg bc client block).1 = AnchorResult.errCode res.Code) := by
  have hA : (AnchorBlock cfg bc client block).1 =
      if res.Code ≠ 0 then AnchorResult.errCode res.Code else AnchorResult.ok := by
    simp [AnchorBlock, hagg, sendRequest, hclient, decodeRespBody]
    split <;> rfl
  by_cases h0 : res.Code = 0
  · simp [hA, h0]
  · simp [hA, h0]

/-- C5 witness: code 42 is reported as the rejection `error code 42`, and
code 0 as success. -/
theorem status_code_classification_witness :
    (AnchorBlock exCfg1 bcNone clientOk42 (exBlock 0 [1, 2, 3])).1 = AnchorResult.errCode 42 ∧
    (AnchorBlock exCfg1 bcNone clientOk0 (exBlock 0 [1, 2, 3])).1 = AnchorResult.ok :=
  ⟨(status_code_classification exCfg1 bcNone clientOk42 (exBlock 0 [1, 2, 3]) exData0
      respBody42 (by decide) (fun r => rfl)).2 (by decide),
   (status_code_classification exCfg1 bcNone clientOk0 (exBlock 0 [1, 2, 3]) exData0
      respBody0 (by decide) (fun r => rfl)).1.mpr rfl⟩

/-- C6: when the aggregation succeeds and the transport-level send fails,
`AnchorBlock` returns the transport error unchanged; its trace ends with the
single `client.Do` call, so nothing is decoded and no further call is made. -/
theorem transport_error_propagates (cfg : KASConfig) (bc : Nat → Option Block)
    (client : HTTPClient) (block : Block) (d : AnchoringDataInternalType0) (e : String)
    (hagg : (blockToAnchoringDataInternalType0 cfg bc block).1 = some d)
    (hclient : ∀ r, client r = DoResult.err e) :
    AnchorBlock cfg bc client block =
      (AnchorResult.transportErr e,
       (blockToAnchoringDataInternalType0 cfg bc block).2 ++ [Event.clientDo]) := by
  simp [AnchorBlock, hagg, sendRequest, hclient]

/-- C6 witness: a failing transport stub yields the transport error and a
trace consisting of the one send attempt. -/
theorem transport_error_propagates_witness :
    AnchorBlock exCfg1 bcNone clientErr (exBlock 0 [1, 2, 3]) =
      (AnchorResult.transportErr "transport down", [Event.clientDo]) := by
  rw [transport_error_propagates exCfg1 bcNone clientErr (exBlock 0 [1, 2, 3]) exData0
    "transport down" (by decide) (fun r => rfl)]
  decide

/-- Every event the aggregation loop records is a block lookup, hence not an
AnchorDB call. -/
theorem aggLoop_no_db (bc : Nat → Option Block) :
    ∀ (fuel i acc : Nat),
      ((aggLoop bc i fuel acc).2.all fun e => !e.isDbCall) = true := by
  intro fuel
  induction fuel with
  | zero => intro i acc; rfl
  | succ n ih =>
    intro i acc
    cases hbc : bc i with
    | none =>
      simp only [aggLoop, hbc]
      rfl
    | some b =>
      simp only [aggLoop, hbc, List.all_cons, Bool.and_eq_true]
      exact ⟨rfl, ih (i + 1) (acc + b.txs.length)⟩

/-- The trace of the window aggregation is exactly the trace of its lookup
loop. -/
theorem blockToAnchoring_no_db (cfg : KASConfig) (bc : Nat → Option Block) (block : Block) :
    ((blockToAnchoringDataInternalType0 cfg bc block).2.all fun e => !e.isDbCall) = true := by
  simp only [blockToAnchoringDataInternalType0]
  split <;> simpa using aggLoop_no_db bc _ _ _

/-- The trace of one send attempt is the single `client.Do` call. -/
theorem sendRequest_trace (cfg : KASConfig) (client : HTTPClient) (payload : Payload) :
    (sendRequest cfg client payload).2 = [Event.clientDo] := by
  simp only [sendRequest]
  split <;> rfl

/-- The trace of `AnchorBlock` contains no AnchorDB call. -/
theorem anchorBlock_no_db (cfg : KASConfig) (bc : Nat → Option Block)
    (client : HTTPClient) (block : Block) :
    ((AnchorBlock cfg bc client block).2.all fun e => !e.isDbCall) = true := by
  simp only [AnchorBlock]
  split
  · exact blockToAnchoring_no_db cfg bc block
  · split
    · simpa [List.all_append, sendRequest_trace, Event.isDbCall] using
        blockToAnchoring_no_db cfg bc block
    · split <;>
        simpa [List.all_append, sendRequest_trace, Event.isDbCall] using
          blockToAnchoring_no_db cfg bc block

/-- C9: none of the anchoring operations ever calls the AnchorDB watermark
capability — every collaborator call recorded by the traces of
`blockToAnchoringDataInternalType0`, `sendRequest`, `AnchorBlock` and
`AnchorPeriodicBlock` is a block lookup or the HTTP send, never
`ReadAnchoredBlockNumber` or `WriteAnchoredBlockNumber`, so the anchor
database state is unchanged by every anchoring attempt. -/
theorem no_db_watermark_calls :
    (∀ cfg bc block,
      ((blockToAnchoringDataInternalType0 cfg bc block).2.all fun e => !e.isDbCall) = true) ∧
    (∀ cfg client payload,
      ((sendRequest cfg client payload).2.all fun e => !e.isDbCall) = true) ∧
    (∀ cfg bc client block,
      ((AnchorBlock cfg bc client block).2.all fun e => !e.isDbCall) = true) ∧
    (∀ cfg bc client block,
      ((AnchorPeriodicBlock cfg bc client block).2.all fun e => !e.isDbCall) = true) := by
  refine ⟨blockToAnchoring_no_db, ?_, anchorBlock_no_db, ?_⟩
  · intro cfg client payload
    rw [sendRequest_trace]
    rfl
  · intro cfg bc client block
    simp only [AnchorPeriodicBlock]
    split
    · rfl
    · rfl
    · split <;> exact anchorBlock_no_db cfg bc client _

/-- When every lookup in the range `[i, i + fuel)` succeeds, the aggregation
loop returns the accumulator plus the window's transaction total, and its
trace is exactly the lookups of that range in ascending order. -/
theorem aggLoop_eq (bc : Nat → Option Block) :
    ∀ (fuel i acc : Nat),
      (∀ j, i ≤ j → j < i + fuel → (bc j).isSome = true) →
      aggLoop bc i fuel acc =
        (some (acc +
          ((List.range' i fuel).map fun j => (bc j).elim 0 fun b => b.txs.length).sum),
         (List.range' i fuel).map Event.getBlockByNumber) := by
  intro fuel
  induction fuel with
  | zero =>
    intro i acc hsome
    simp [aggLoop]
  | succ n ih =>
    intro i acc hsome
    have hi : (bc i).isSome = true := hsome i (Nat.le_refl i) (by omega)
    obtain ⟨b, hb⟩ := Option.isSome_iff_exists.mp hi
    have ihx := ih (i + 1) (acc + b.txs.length)
      (fun j h1 h2 => hsome j (by omega) (by omega))
    simp only [aggLoop, hb, ihx, List.range'_succ, List.map_cons, List.sum_cons,
      Option.elim_some, Prod.mk.injEq, Option.some.injEq, List.cons.injEq]
    constructor
    · omega
    · trivial

/-- C1: for every block and period ≥ 1 (a uint64 period), if every block of
the trailing window below the block itself is retrievable, the produced
summary has `BlockCount = h - max(0, h - period + 1) + 1`, `TxCount` equal
to the block's own transaction count plus the window's transaction total,
and all non-counter fields copied verbatim from the block's header. -/
theorem window_aggregation_correct (cfg : KASConfig) (bc : Nat → Option Block) (block : Block)
    (hp : 1 ≤ cfg.AnchorPeriod) (hp64 : cfg.AnchorPeriod < 2 ^ 64)
    (hbc : ∀ j, specWindowStart cfg.AnchorPeriod block.numberU64 ≤ j →
      j < block.numberU64 → (bc j).isSome = true) :
    (blockToAnchoringDataInternalType0 cfg bc block).1 =
      some {
        BlockHash := block.hash
        TxHash := block.header.TxHash
        ParentHash := block.header.ParentHash
        ReceiptHash := block.header.ReceiptHash
        StateRootHash := block.header.Root
        BlockNumber := block.header.Number
        BlockCount :=
          block.numberU64 - specWindowStart cfg.AnchorPeriod block.numberU64 + 1
        TxCount := block.txs.length +
          specWindowTxSum bc (specWindowStart cfg.AnchorPeriod block.numberU64)
            block.numberU64 } := by
  have hlt : block.numberU64 < 2 ^ 64 := Nat.mod_lt _ (by norm_num)
  set h := block.numberU64 with hh
  set s := specWindowStart cfg.AnchorPeriod h with hs
  have hcase : (cfg.AnchorPeriod ≤ h ∧ s = h - cfg.AnchorPeriod + 1) ∨
      (h < cfg.AnchorPeriod ∧ s = 0) := by
    rcases le_or_lt cfg.AnchorPeriod h with hc | hc
    · refine Or.inl ⟨hc, ?_⟩
      rw [hs]
      unfold specWindowStart
      have hx : (0 : Int) ≤ (h : Int) - (cfg.AnchorPeriod : Int) + 1 := by omega
      rw [max_eq_right hx]
      omega
    · refine Or.inr ⟨hc, ?_⟩
      rw [hs]
      unfold specWindowStart
      have hx : (h : Int) - (cfg.AnchorPeriod : Int) + 1 ≤ 0 := by omega
      rw [max_eq_left hx]
      rfl
  have hsh : s ≤ h := by
    rcases hcase with ⟨hc, hse⟩ | ⟨hc, hse⟩ <;> omega
  have hstart :
      (if cfg.AnchorPeriod ≤ h then (h - cfg.AnchorPeriod + 1) % 2 ^ 64 else 0) = s := by
    rcases hcase with ⟨hc, hse⟩ | ⟨hc, hse⟩
    · rw [if_pos hc, Nat.mod_eq_of_lt (by omega)]
      omega
    · rw [if_neg (by omega)]
      omega
  have hblk : (h + (2 ^ 64 - s) + 1) % 2 ^ 64 = h - s + 1 := by
    have h1 : h - s + 1 < 2 ^ 64 := by
      rcases hcase with ⟨hc, hse⟩ | ⟨hc, hse⟩ <;> omega
    have h2 : h + (2 ^ 64 - s) + 1 = (h - s + 1) + 2 ^ 64 := by omega
    rw [h2, Nat.add_mod_right, Nat.mod_eq_of_lt h1]
  have hloop := aggLoop_eq bc (h - s) s block.txs.length
    (fun j h1 h2 => hbc j h1 (by omega))
  simp only [blockToAnchoringDataInternalType0, ← hh, hstart, hloop, hblk]
  rfl

/-- C1 witness: period 2, block at height 2 with two transactions, window
block at height 1 with three transactions: the summary counts 2 blocks and
5 transactions and copies the header fields of the block at height 2. -/
theorem window_aggregation_correct_witness :
    1 ≤ exCfg2.AnchorPeriod ∧
    (blockToAnchoringDataInternalType0 exCfg2 exBc (exBlock 2 [5, 6])).1 =
      some { BlockHash := 92, TxHash := 1, ParentHash := 2, ReceiptHash := 3
             StateRootHash := 4, BlockNumber := 2, BlockCount := 2, TxCount := 5 } := by
  refine ⟨by decide, ?_⟩
  rw [window_aggregation_correct exCfg2 exBc (exBlock 2 [5, 6]) (by decide) (by decide)
    (fun j h1 h2 => ?_)]
  · decide
  · have hs2 : specWindowStart exCfg2.AnchorPeriod (exBlock 2 [5, 6]).numberU64 = 1 := by
      decide
    have hn2 : (exBlock 2 [5, 6]).numberU64 = 2 := by decide
    rw [hs2] at h1
    rw [hn2] at h2
    have hj : j = 1 := by omega
    rw [hj]
    rfl

end KasAnchor
